import Mathlib

/-!
Verification of the driftmgr user-simulation harness
(`scripts/tools/user_simulation.py`).

The Python source is embedded shallowly: strings are Lean `String`s,
Python's `pat in s` substring test and `str.lower()` are modelled by
executable functions below, floats are modelled by `ℚ`, and the mutable
`self.test_summary` dictionary is threaded explicitly as a state value.
-/

namespace Driftmgr

/-- Python's per-character `str.lower()` (the strings involved are ASCII). -/
def strLower (s : String) : String := ⟨s.data.map Char.toLower⟩

/-- Holds when `pat` is an initial segment of `l`. -/
def isPrefixL : List Char → List Char → Bool
  | [], _ => true
  | _ :: _, [] => false
  | a :: as, b :: bs => a == b && isPrefixL as bs

/-- Holds when `pat` occurs contiguously inside `l`. -/
def containsL (pat : List Char) : List Char → Bool
  | [] => isPrefixL pat []
  | b :: bs => isPrefixL pat (b :: bs) || containsL pat bs

/-- Python's `pat in s` substring test. -/
def strContains (s pat : String) : Bool := containsL pat.data s.data

/-- The `result_data` dictionary built by `DriftMgrUserSimulator.run_command`:
exit code, captured stdout/stderr, wall-clock duration and the
`returncode == 0` success flag. -/
structure ResultData where
  command : String
  return_code : Int
  stdout : String
  stderr : String
  duration : ℚ
  success : Bool
deriving Repr, DecidableEq

/-- The `validation` dictionary built by
`DriftMgrUserSimulator.validate_command_result`. -/
structure Validation where
  command : String
  success : Bool
  test_passed : Bool
  test_result : String
  validation_details : List String
  expected_behavior : String
  actual_behavior : String
deriving Repr, DecidableEq

/-- Line 271: the check `"driftmgr not available" in result stderr lowered`. -/
def stderrSaysUnavailable (res : ResultData) : Bool :=
  strContains (strLower res.stderr) "driftmgr not available"

/-- Line 280: the check `"file not found" or "cannot find the file" in
stderr lowered`. -/
def stderrSaysNotFound (res : ResultData) : Bool :=
  strContains (strLower res.stderr) "file not found" ||
  strContains (strLower res.stderr) "cannot find the file"

/-- Shape shared by every category branch of `validate_command_result`:
set `expected_behavior`, then either mark the test passed with the pass
detail or leave it failed with the failure detail. -/
def mkCatVerdict (base : Validation) (expected : String) (cond : Bool)
    (passDetail failDetail : String) : Validation :=
  if cond then
    { base with
        expected_behavior := expected,
        test_passed := true,
        test_result := "PASSED",
        validation_details := [passDetail] }
  else
    { base with
        expected_behavior := expected,
        validation_details := [failDetail] }

/-- The verdict part of `validate_command_result` (lines 258-386): the two
missing-tool checks on stderr followed by the category `elif` chain keyed on
substrings of the raw command text. -/
def validateVerdict (command : String) (res : ResultData) : Validation :=
  let base : Validation :=
    { command := command, success := res.success, test_passed := false,
      test_result := "FAILED", validation_details := [],
      expected_behavior := "", actual_behavior := "" }
  if stderrSaysUnavailable res then
    { base with
        expected_behavior := "Should handle missing driftmgr gracefully",
        test_passed := true, test_result := "PASSED",
        validation_details := ["Command handled missing driftmgr gracefully"],
        actual_behavior := "Skipped command due to missing driftmgr" }
  else if stderrSaysNotFound res then
    { base with
        expected_behavior := "Should handle missing executable gracefully",
        test_passed := true, test_result := "PASSED",
        validation_details := ["Command handled missing executable gracefully"],
        actual_behavior := "Executable not found - handled appropriately" }
  else if strContains command "credentials" then
    mkCatVerdict base "Should detect or list credentials"
      (res.success || strContains (strLower res.stdout) "credentials found" ||
        strContains (strLower res.stdout) "help")
      "Credential command executed successfully"
      "Credential command failed or returned unexpected output"
  else if strContains command "state" then
    mkCatVerdict base "Should handle state file operations"
      (res.success || strContains (strLower res.stdout) "help" ||
        strContains (strLower res.stdout) "usage")
      "State command executed successfully"
      "State command failed or returned unexpected output"
  else if strContains command "discover" then
    mkCatVerdict base "Should attempt resource discovery"
      (res.success || strContains (strLower res.stdout) "discovering" ||
        strContains (strLower res.stdout) "found")
      "Discovery command executed successfully"
      "Discovery command failed or returned unexpected output"
  else if strContains command "analyze" then
    mkCatVerdict base "Should perform drift analysis"
      (res.success || strContains (strLower res.stdout) "analyzing" ||
        strContains (strLower res.stdout) "drift")
      "Analysis command executed successfully"
      "Analysis command failed or returned unexpected output"
  else if strContains command "monitor" || strContains command "dashboard" then
    mkCatVerdict base "Should handle monitoring operations"
      (res.success || strContains (strLower res.stdout) "monitoring" ||
        strContains (strLower res.stdout) "dashboard")
      "Monitoring command executed successfully"
      "Monitoring command failed or returned unexpected output"
  else if strContains command "remediate" then
    mkCatVerdict base "Should handle remediation operations"
      (res.success || strContains (strLower res.stdout) "remediating" ||
        strContains (strLower res.stdout) "dry-run")
      "Remediation command executed successfully"
      "Remediation command failed or returned unexpected output"
  else if strContains command "config" || strContains command "setup" then
    mkCatVerdict base "Should handle configuration operations"
      (res.success || strContains (strLower res.stdout) "config" ||
        strContains (strLower res.stdout) "setup")
      "Configuration command executed successfully"
      "Configuration command failed or returned unexpected output"
  else if strContains command "report" || strContains command "export" then
    mkCatVerdict base "Should handle reporting operations"
      (res.success || strContains (strLower res.stdout) "report" ||
        strContains (strLower res.stdout) "export")
      "Reporting command executed successfully"
      "Reporting command failed or returned unexpected output"
  else if strContains command "plugin" || strContains command "api" ||
      strContains command "webhook" then
    mkCatVerdict base "Should handle advanced features"
      (res.success || strContains (strLower res.stdout) "plugin" ||
        strContains (strLower res.stdout) "api")
      "Advanced feature command executed successfully"
      "Advanced feature command failed or returned unexpected output"
  else if strContains command "invalid" || strContains command "error" then
    mkCatVerdict base "Should handle errors gracefully"
      (!res.success && (!(res.stderr == "") ||
        strContains (strLower res.stdout) "error"))
      "Error handling worked as expected"
      "Error handling did not work as expected"
  else
    mkCatVerdict base "Should execute command successfully"
      res.success
      "Command executed successfully"
      "Command failed to execute"

/-- One entry of `self.test_summary['feature_results']`. -/
structure FeatureStats where
  total : Nat
  passed : Nat
  failed : Nat
  success_rate : ℚ
deriving Repr, DecidableEq

/-- The `self.test_summary` dictionary; `feature_results` is a Python dict
modelled as an insertion-ordered association list. -/
structure TestSummary where
  total_tests : Nat
  passed_tests : Nat
  failed_tests : Nat
  skipped_tests : Nat
  feature_results : List (String × FeatureStats)
deriving Repr, DecidableEq

/-- The `test_summary` value set up in `DriftMgrUserSimulator.__init__`. -/
def initSummary : TestSummary :=
  { total_tests := 0, passed_tests := 0, failed_tests := 0,
    skipped_tests := 0, feature_results := [] }

/-- Lines 404-413: increment the feature's total and the matching
passed/failed counter, then recompute its success rate. -/
def bumpStats (passed : Bool) (fs : FeatureStats) : FeatureStats :=
  let t := fs.total + 1
  let p := if passed then fs.passed + 1 else fs.passed
  let f := if passed then fs.failed else fs.failed + 1
  { total := t, passed := p, failed := f, success_rate := (p : ℚ) / (t : ℚ) * 100 }

/-- Lines 396-413: insert a zeroed entry for an unseen feature, then apply
`bumpStats` to the feature's entry. -/
def updateFeatureResults (feature : String) (passed : Bool) :
    List (String × FeatureStats) → List (String × FeatureStats)
  | [] => [(feature, bumpStats passed ⟨0, 0, 0, 0⟩)]
  | (k, fs) :: rest =>
    if k == feature then (k, bumpStats passed fs) :: rest
    else (k, fs) :: updateFeatureResults feature passed rest

/-- Full `DriftMgrUserSimulator.validate_command_result`: compute the
verdict and update `self.test_summary`.  The two missing-tool branches
return before reaching the statistics update (lines 277 and 286), so they
leave the summary untouched. -/
def validate_command_result (command feature : String) (res : ResultData)
    (summary : TestSummary) : Validation × TestSummary :=
  let v := validateVerdict command res
  if stderrSaysUnavailable res || stderrSaysNotFound res then
    (v, summary)
  else
    (v,
      { summary with
          total_tests := summary.total_tests + 1,
          passed_tests :=
            if v.test_passed then summary.passed_tests + 1 else summary.passed_tests,
          failed_tests :=
            if v.test_passed then summary.failed_tests else summary.failed_tests + 1,
          feature_results :=
            updateFeatureResults feature v.test_passed summary.feature_results })

/-- One validator call as observed by the orchestrator: a command string, the
feature bucket it was issued under, and the runner's result. -/
structure ValidatorCall where
  command : String
  feature : String
  res : ResultData
deriving Repr

/-- Fold a sequence of validator calls over the summary state. -/
def runValidatorCalls (calls : List ValidatorCall) (summary : TestSummary) :
    TestSummary :=
  calls.foldl
    (fun s c => (validate_command_result c.command c.feature c.res s).2) summary

/-! ### Process runner (`run_command`, lines 441-553) -/

/-- How the `subprocess.run` call inside `run_command` ended: a normal
completion, `subprocess.TimeoutExpired`, `FileNotFoundError`, or any other
exception. -/
inductive LaunchOutcome
  | completed (returncode : Int) (stdout stderr : String) (dur : ℚ)
  | timedOut
  | fileNotFound (msg : String)
  | otherExc (msg : String)
deriving Repr, DecidableEq

/-- The `result_data` value `run_command` returns for each launch outcome:
the `try` body (lines 479-486) and the three `except` handlers
(lines 504-553).  Every handler returns a value; nothing propagates. -/
def run_command_result (cmd_str : String) (timeoutBudget : ℚ) :
    LaunchOutcome → ResultData
  | .completed rc out err dur =>
    { command := cmd_str, return_code := rc, stdout := out, stderr := err,
      duration := dur, success := rc == 0 }
  | .timedOut =>
    { command := cmd_str, return_code := -1, stdout := "",
      stderr := "Command timed out", duration := timeoutBudget, success := false }
  | .fileNotFound msg =>
    { command := cmd_str, return_code := -1, stdout := "",
      stderr := "Command not found: " ++ msg, duration := 0, success := false }
  | .otherExc msg =>
    { command := cmd_str, return_code := -1, stdout := "", stderr := msg,
      duration := 0, success := false }

/-! ### Availability probe cache (lines 417-439, 448-468 and 1170-1178) -/

/-- The probe-relevant state of one simulator object: the
`_driftmgr_available` attribute (absent until first set) and, for the
verification, a count of how many times the `driftmgr --version` probe
subprocess has been spawned. -/
structure ProbeState where
  driftmgr_available : Option Bool
  probeCount : Nat
deriving Repr, DecidableEq

def initProbeState : ProbeState := { driftmgr_available := none, probeCount := 0 }

/-- Lines 417-439, `validate_driftmgr_availability`: spawns one
`driftmgr --version` subprocess and reports whether the tool answered;
`toolPresent` abstracts that answer.  It does not touch the cache. -/
def validate_driftmgr_availability (toolPresent : Bool) (st : ProbeState) :
    Bool × ProbeState :=
  (toolPresent, { st with probeCount := st.probeCount + 1 })

/-- Line 449: the test that the command list is non-empty with head `driftmgr`. -/
def headIsDriftmgr : List String → Bool
  | [] => false
  | c :: _ => c == "driftmgr"

/-- Line 444: joining the command tokens with single spaces. -/
def joinSpace : List String → String
  | [] => ""
  | [c] => c
  | c :: cs => c ++ " " ++ joinSpace cs

/-- The synthesized result of lines 455-462, returned without launching a
process when the cached probe said the tool is unavailable. -/
def unavailableResult (cmd : List String) : ResultData :=
  { command := joinSpace cmd, return_code := -1, stdout := "",
    stderr := "DriftMgr not available - skipping command", duration := 0,
    success := false }

/-- The gate at the top of `run_command` (lines 448-468): probe once if the
cache attribute is unset, then either skip the launch with the synthesized
result (`some`) or fall through to the real subprocess call (`none`). -/
def run_command_gate (toolPresent : Bool) (cmd : List String) (st : ProbeState) :
    ProbeState × Option ResultData :=
  if headIsDriftmgr cmd then
    match st.driftmgr_available with
    | some b =>
      if b then (st, none) else (st, some (unavailableResult cmd))
    | none =>
      let pr := validate_driftmgr_availability toolPresent st
      let st' : ProbeState := { pr.2 with driftmgr_available := some pr.1 }
      if pr.1 then (st', none) else (st', some (unavailableResult cmd))
  else (st, none)

/-- A session's worth of `run_command` invocations, threading the probe
cache. -/
def runCommands (toolPresent : Bool) : List (List String) → ProbeState → ProbeState
  | [], st => st
  | c :: cs, st => runCommands toolPresent cs (run_command_gate toolPresent c st).1

/-- Lines 1161-1210, `main`: one direct `validate_driftmgr_availability`
call (line 1173, which does not set the cache attribute) followed by the
simulation's `run_command` invocations. -/
def mainSessionState (toolPresent : Bool) (cmds : List (List String)) : ProbeState :=
  runCommands toolPresent cmds (validate_driftmgr_availability toolPresent initProbeState).2

/-! ### Progress bar and TUI (lines 54-179) -/

/-- What one `LoadingBar.update` call renders (lines 71-102): the clamped
progress fraction, the filled bar width, the integer percentage, and the
ETA (`none` models the `"ETA: --:--"` placeholder). -/
structure BarRender where
  progress : ℚ
  filled_width : ℤ
  percentage : ℤ
  eta : Option ℚ
deriving Repr, DecidableEq

/-- Lines 71-102, `LoadingBar.update`, as a pure function of the bar
fields `total_steps` and `width`, the `step` argument and the elapsed time.
The `int()` conversion on these non-negative floats is the floor. -/
def loadingBarUpdate (total_steps width step : ℕ) (elapsed : ℚ) : BarRender :=
  let progress : ℚ := min ((step : ℚ) / (total_steps : ℚ)) 1
  { progress := progress,
    filled_width := ⌊(width : ℚ) * progress⌋,
    percentage := ⌊progress * 100⌋,
    eta := if progress > 0 then some (elapsed / progress * (1 - progress)) else none }

/-- The `len(feature_steps)` value in `SimulationTUI.initialize_simulation`
(lines 132-146): the loading bar is constructed with 11 steps. -/
def FEATURE_STEP_COUNT : ℕ := 11

/-- Default bar width (line 57). -/
def BAR_WIDTH : ℕ := 50

/-- The percentage the simulation's loading bar renders for a given `step`
argument. -/
def barPercentage (step : ℕ) : ℤ :=
  (loadingBarUpdate FEATURE_STEP_COUNT BAR_WIDTH step 0).percentage

/-- The progress-relevant state of `SimulationTUI`. -/
structure TUIState where
  total_commands : ℕ
  completed_commands : ℕ
deriving Repr, DecidableEq

/-- The two kinds of progress updates the orchestrator issues:
`update_feature_progress(feature_index, ...)` (passes the feature index as
the step) and `update_command_progress(...)` (increments
`completed_commands` and passes `int(completed/total*100)` as the step). -/
inductive TUIEvent
  | featureUpdate (idx : ℕ)
  | commandDone
deriving Repr, DecidableEq

/-- One TUI update: the successor state and the `step` value handed to
`LoadingBar.update` (lines 156-179). -/
def tuiStep : TUIState → TUIEvent → TUIState × ℕ
  | st, .featureUpdate i => (st, i)
  | st, .commandDone =>
    let st' : TUIState := { st with completed_commands := st.completed_commands + 1 }
    (st', (⌊(st'.completed_commands : ℚ) / (st.total_commands : ℚ) * 100⌋).toNat)

/-- The sequence of percentages the loading bar renders for a sequence of
TUI events. -/
def renderedPercents : TUIState → List TUIEvent → List ℤ
  | _, [] => []
  | st, e :: es =>
    let p := tuiStep st e
    barPercentage p.2 :: renderedPercents p.1 es

/-! ### Report generation (`generate_simulation_report`, lines 1014-1101)
and the session driver (`run_full_simulation`, lines 1103-1159) -/

/-- One entry of `self.simulation_results`: the feature tag and the
`run_command` result recorded for one command. -/
structure SimRecord where
  feature : String
  result : ResultData
deriving Repr, DecidableEq

/-- One entry of the report's `feature_summary` mapping. -/
structure FeatureSummary where
  total_commands : ℕ
  successful_commands : ℕ
  failed_commands : ℕ
  avg_duration : ℚ
  total_duration : ℚ
  test_success_rate : ℚ
deriving Repr, DecidableEq

/-- The computed fields of the report dictionary (lines 1030-1072). -/
structure Report where
  total_commands : ℕ
  successful_commands : ℕ
  failed_commands : ℕ
  total_duration : ℚ
  overall_success_rate : ℚ
  feature_summary : List (String × FeatureSummary)
deriving Repr, DecidableEq

/-- Lines 1057-1064: bump one feature's summary with one record. -/
def bumpFeatureSummary (res : ResultData) (fs : FeatureSummary) : FeatureSummary :=
  { fs with
      total_commands := fs.total_commands + 1,
      total_duration := fs.total_duration + res.duration,
      successful_commands :=
        if res.success then fs.successful_commands + 1 else fs.successful_commands,
      failed_commands :=
        if res.success then fs.failed_commands else fs.failed_commands + 1 }

/-- Lines 1045-1064: dict accumulation of `feature_summary`, insertion
ordered. -/
def accumFeatureSummary (feature : String) (res : ResultData) :
    List (String × FeatureSummary) → List (String × FeatureSummary)
  | [] => [(feature, bumpFeatureSummary res ⟨0, 0, 0, 0, 0, 0⟩)]
  | (k, fs) :: rest =>
    if k == feature then (k, bumpFeatureSummary res fs) :: rest
    else (k, fs) :: accumFeatureSummary feature res rest

/-- Dict lookup in `self.test_summary['feature_results']`. -/
def lookupFeature (feature : String) :
    List (String × FeatureStats) → Option FeatureStats
  | [] => none
  | (k, fs) :: rest => if k == feature then some fs else lookupFeature feature rest

/-- Lines 1066-1072: fill in `avg_duration` (guarded by
`total_commands > 0`) and copy the per-feature test success rate. -/
def finalizeFeatureSummary (summary : TestSummary)
    (l : List (String × FeatureSummary)) : List (String × FeatureSummary) :=
  l.map (fun kv =>
    let fs := kv.2
    let fs1 :=
      if fs.total_commands > 0 then
        { fs with avg_duration := fs.total_duration / (fs.total_commands : ℚ) }
      else fs
    let fs2 :=
      match lookupFeature kv.1 summary.feature_results with
      | some st => { fs1 with test_success_rate := st.success_rate }
      | none => fs1
    (kv.1, fs2))

/-- The report value built by lines 1019-1072; `overall_success_rate`
(line 1028) is guarded by `total_tests > 0`. -/
def buildReport (results : List SimRecord) (summary : TestSummary) : Report :=
  let total_commands := results.length
  let successful := (results.filter (fun r => r.result.success)).length
  let overall : ℚ :=
    if summary.total_tests > 0 then
      (summary.passed_tests : ℚ) / (summary.total_tests : ℚ) * 100
    else 0
  { total_commands := total_commands,
    successful_commands := successful,
    failed_commands := total_commands - successful,
    total_duration := (results.map (fun r => r.result.duration)).sum,
    overall_success_rate := overall,
    feature_summary :=
      finalizeFeatureSummary summary
        (results.foldl (fun acc r => accumFeatureSummary r.feature r.result acc) []) }

/-- Python's `/`, raising `ZeroDivisionError` on a zero denominator. -/
def pyDiv (a b : ℚ) : Except String ℚ :=
  if b = 0 then Except.error "ZeroDivisionError" else Except.ok (a / b)

/-- Lines 1014-1101, `generate_simulation_report`: builds and saves the
report, then logs the summary.  The log line
`(successful_commands / total_commands * 100)` (line 1084) divides without
a zero guard; the guarded computations (lines 1028, 1069 and 1094) do not
use `pyDiv`. -/
def generate_simulation_report (results : List SimRecord) (summary : TestSummary) :
    Except String Report := do
  let report := buildReport results summary
  let _ ← pyDiv (report.successful_commands : ℚ) (report.total_commands : ℚ)
  Except.ok report

/-- How the `try` block of `run_full_simulation` (lines 1128-1159) ended:
all phases ran, a `KeyboardInterrupt` arrived, or some other exception was
raised. -/
inductive SessionEnd
  | completed
  | interrupted
  | raisedErr (msg : String)
deriving Repr, DecidableEq

/-- Lines 1103-1159, `run_full_simulation`, as a function of the records
and statistics accumulated when the `try` block ended.  Both `except`
handlers return `None`; an exception escaping
`generate_simulation_report` is caught by the second handler. -/
def run_full_simulation (results : List SimRecord) (summary : TestSummary) :
    SessionEnd → Option Report
  | .completed =>
    match generate_simulation_report results summary with
    | Except.ok r => some r
    | Except.error _ => none
  | .interrupted => none
  | .raisedErr _ => none

/-! ### Specification-level rule table

`selectRule` and `rulePass` restate the validator's category dispatch in
the spec's vocabulary (a first-match rule table); the theorems below
compare them with `validate_command_result` as embedded from the source. -/

/-- The category rules of the spec's expected-behavior table. -/
inductive RuleCat
  | credentials
  | state
  | discovery
  | analysis
  | monitoring
  | remediation
  | configuration
  | reporting
  | advanced
  | errorHandling
  | defaultRule
deriving Repr, DecidableEq

/-- First matching substring of the command text, in the fixed order the
spec's table lists the categories; the declared feature tag plays no part. -/
def selectRule (cmd : String) : RuleCat :=
  if strContains cmd "credentials" then .credentials
  else if strContains cmd "state" then .state
  else if strContains cmd "discover" then .discovery
  else if strContains cmd "analyze" then .analysis
  else if strContains cmd "monitor" || strContains cmd "dashboard" then .monitoring
  else if strContains cmd "remediate" then .remediation
  else if strContains cmd "config" || strContains cmd "setup" then .configuration
  else if strContains cmd "report" || strContains cmd "export" then .reporting
  else if strContains cmd "plugin" || strContains cmd "api" ||
      strContains cmd "webhook" then .advanced
  else if strContains cmd "invalid" || strContains cmd "error" then .errorHandling
  else .defaultRule

/-- The spec table's PASS condition for each rule: success or a
category-relevant keyword in stdout, inverted for error-handling, bare
success for the default rule. -/
def rulePass (rc : RuleCat) (res : ResultData) : Bool :=
  match rc with
  | .credentials =>
    res.success || strContains (strLower res.stdout) "credentials found" ||
      strContains (strLower res.stdout) "help"
  | .state =>
    res.success || strContains (strLower res.stdout) "help" ||
      strContains (strLower res.stdout) "usage"
  | .discovery =>
    res.success || strContains (strLower res.stdout) "discovering" ||
      strContains (strLower res.stdout) "found"
  | .analysis =>
    res.success || strContains (strLower res.stdout) "analyzing" ||
      strContains (strLower res.stdout) "drift"
  | .monitoring =>
    res.success || strContains (strLower res.stdout) "monitoring" ||
      strContains (strLower res.stdout) "dashboard"
  | .remediation =>
    res.success || strContains (strLower res.stdout) "remediating" ||
      strContains (strLower res.stdout) "dry-run"
  | .configuration =>
    res.success || strContains (strLower res.stdout) "config" ||
      strContains (strLower res.stdout) "setup"
  | .reporting =>
    res.success || strContains (strLower res.stdout) "report" ||
      strContains (strLower res.stdout) "export"
  | .advanced =>
    res.success || strContains (strLower res.stdout) "plugin" ||
      strContains (strLower res.stdout) "api"
  | .errorHandling =>
    !res.success && (!(res.stderr == "") || strContains (strLower res.stdout) "error")
  | .defaultRule => res.success

/-! ### Invariants and observation predicates -/

/-- The hierarchical statistics invariant of the spec: totals decompose
into passed plus failed at both levels, and the per-feature totals sum to
the session total. -/
def statsInv (s : TestSummary) : Prop :=
  s.total_tests = s.passed_tests + s.failed_tests ∧
  (∀ e ∈ s.feature_results, e.2.total = e.2.passed + e.2.failed) ∧
  (s.feature_results.map (fun e => e.2.total)).sum = s.total_tests

/-- A list of rendered percentages is monotonically non-decreasing. -/
def monoPercents (l : List ℤ) : Prop := l.Chain' (· ≤ ·)

/-- Boolean check of `monoPercents`, evaluated by the kernel. -/
def monoPercentsB : List ℤ → Bool
  | a :: b :: rest => if a ≤ b then monoPercentsB (b :: rest) else false
  | _ => true

/-! ### Concrete inputs and executable mirrors used by the theorems -/

/-- A `result_data` value with the given exit code and channels, `success`
set the way `run_command` sets it. -/
def mkRes (rc : Int) (out err : String) : ResultData :=
  { command := "", return_code := rc, stdout := out, stderr := err,
    duration := 0, success := rc == 0 }

/-- Discriminates the normal-completion launch outcome from the three
exceptional ones. -/
def isCompleted : LaunchOutcome → Bool
  | .completed _ _ _ _ => true
  | _ => false

/-- Integer form of `barPercentage` (the floats compute the same value on
these arguments, see `barPercentage_eq_nat`). -/
def barPercentageNat (s : ℕ) : ℤ :=
  ((min ((100 * s) / FEATURE_STEP_COUNT) 100 : ℕ) : ℤ)

/-- Integer form of the `step` value `update_command_progress` passes to
the bar once `completed_commands` reaches `c` out of `T`. -/
def tuiCmdStep (T c : ℕ) : ℕ := (100 * c) / T

/-- Integer mirror of `renderedPercents`, used to evaluate it. -/
def renderedPercentsNat : TUIState → List TUIEvent → List ℤ
  | _, [] => []
  | st, TUIEvent.featureUpdate i :: es =>
    barPercentageNat i :: renderedPercentsNat st es
  | st, TUIEvent.commandDone :: es =>
    barPercentageNat (tuiCmdStep st.total_commands (st.completed_commands + 1)) ::
      renderedPercentsNat { st with completed_commands := st.completed_commands + 1 } es

/-- The TUI state right after `initialize_simulation(201)`: the command
total hard-coded in `run_full_simulation` (lines 1109-1121). -/
def tuiInit : TUIState := { total_commands := 201, completed_commands := 0 }

/-- The progress updates the orchestrator issues through the first three
phases: feature update 0, the 3 credential commands, feature update 1, the
94 state-file commands, feature update 2. -/
def harnessOpeningEvents : List TUIEvent :=
  TUIEvent.featureUpdate 0 ::
    (List.replicate 3 TUIEvent.commandDone ++
      (TUIEvent.featureUpdate 1 ::
        (List.replicate 94 TUIEvent.commandDone ++ [TUIEvent.featureUpdate 2])))

/-! ## Theorems -/

/-- C4: for every command, each exceptional launch outcome (timeout,
executable not found, any other exception) is converted by `run_command`
into a returned result with exit code -1, success false and empty stdout;
in the timeout case the duration equals the timeout budget and stderr
carries a textual reason. -/
theorem C4_runner_converts_failures (cmd_str : String) (timeoutBudget : ℚ)
    (o : LaunchOutcome) (h : isCompleted o = false) :
    (run_command_result cmd_str timeoutBudget o).return_code = -1 ∧
    (run_command_result cmd_str timeoutBudget o).success = false ∧
    (run_command_result cmd_str timeoutBudget o).stdout = "" ∧
    (o = LaunchOutcome.timedOut →
      (run_command_result cmd_str timeoutBudget o).duration = timeoutBudget ∧
      (run_command_result cmd_str timeoutBudget o).stderr = "Command timed out") := by
  cases o with
  | completed rc out err dur => simp [isCompleted] at h
  | timedOut => simp [run_command_result]
  | fileNotFound msg => simp [run_command_result]
  | otherExc msg => simp [run_command_result]

/-- Witness for C4 at the timeout outcome of a 90-second analysis
command. -/
theorem C4_runner_converts_failures_witness :
    isCompleted LaunchOutcome.timedOut = false ∧
    (run_command_result "driftmgr analyze" 90 LaunchOutcome.timedOut).return_code = -1 ∧
    (run_command_result "driftmgr analyze" 90 LaunchOutcome.timedOut).duration = 90 :=
  ⟨by decide,
    (C4_runner_converts_failures "driftmgr analyze" 90 LaunchOutcome.timedOut (by decide)).1,
    ((C4_runner_converts_failures "driftmgr analyze" 90 LaunchOutcome.timedOut
      (by decide)).2.2.2 rfl).1⟩

/-- C6 counterexample: a run interrupted by the operator after one
accumulated record returns `None` (line 1156); no partial report is
finalized or returned, contradicting the claim. -/
theorem C6_interrupted_run_returns_none_cex :
    run_full_simulation
      [{ feature := "credential_auto_detection", result := mkRes 0 "ok" "" }]
      initSummary SessionEnd.interrupted = none := rfl

/-- C6 amended: an operator interruption aborts the remaining commands and
phases and the run returns no report at all - the accumulated records and
statistics are discarded rather than finalized into a partial report. -/
theorem C6_interrupted_run_discards_report (results : List SimRecord)
    (summary : TestSummary) :
    run_full_simulation results summary SessionEnd.interrupted = none := rfl

/-- C7: for a session with zero executed commands the guarded
`overall_success_rate` field is 0, but report generation does not
complete: the unguarded command-success-rate log line divides by the zero
command count and raises `ZeroDivisionError`. -/
theorem C7_empty_session_crashes :
    (buildReport [] initSummary).overall_success_rate = 0 ∧
    generate_simulation_report [] initSummary = Except.error "ZeroDivisionError" := by
  constructor
  · rfl
  · rfl

/-- Once the cache attribute is set, `run_command`'s gate never changes the
probe state (and in particular never probes again). -/
lemma run_command_gate_cached (t : Bool) (c : List String) (st : ProbeState)
    (b : Bool) (h : st.driftmgr_available = some b) :
    (run_command_gate t c st).1 = st := by
  unfold run_command_gate
  cases hc : headIsDriftmgr c
  · simp
  · simp only [h, if_true]
    cases b <;> simp

/-- The gate either leaves the state alone or, when the cache was unset,
performs exactly one probe and sets the cache. -/
lemma run_command_gate_state (t : Bool) (c : List String) (st : ProbeState) :
    (run_command_gate t c st).1 = st ∨
      (st.driftmgr_available = none ∧
        (run_command_gate t c st).1 =
          { driftmgr_available := some t, probeCount := st.probeCount + 1 }) := by
  unfold run_command_gate validate_driftmgr_availability
  cases hc : headIsDriftmgr c
  · simp
  · cases hav : st.driftmgr_available with
    | none => right; refine ⟨rfl, ?_⟩; cases t <;> simp
    | some b => left; cases b <;> simp

/-- Probe-count invariant carried along a session: either the cache is
still unset and no probe has run, or it is set and at most one probe ran. -/
lemma runCommands_probe_inv (t : Bool) :
    ∀ (cmds : List (List String)) (st : ProbeState),
      (st.driftmgr_available = none ∧ st.probeCount = 0) ∨
        (∃ b, st.driftmgr_available = some b ∧ st.probeCount ≤ 1) →
      (runCommands t cmds st).probeCount ≤ 1 := by
  intro cmds
  induction cmds with
  | nil =>
    intro st h
    rcases h with ⟨_, h2⟩ | ⟨b, _, h2⟩ <;> simpa [runCommands] using by omega
  | cons c cs ih =>
    intro st h
    show (runCommands t cs (run_command_gate t c st).1).probeCount ≤ 1
    apply ih
    rcases run_command_gate_state t c st with hg | ⟨hnone, hg⟩
    · rw [hg]; exact h
    · rcases h with ⟨_, h2⟩ | ⟨b, h1, _⟩
      · right
        refine ⟨t, by rw [hg], ?_⟩
        rw [hg]
        show st.probeCount + 1 ≤ 1
        omega
      · rw [hnone] at h1; cases h1

/-- C3 counterexample: in a session driven by `main`, the
`driftmgr --version` probe runs twice - once directly from `main`
(line 1173, uncached) and once more from the first driftmgr
`run_command` - so it is not executed at most once per session. -/
theorem C3_probe_runs_twice_cex :
    ¬ (mainSessionState false [["driftmgr", "credentials", "auto-detect"]]).probeCount ≤ 1 := by
  decide

/-- C3 amended: across all `run_command` invocations of a session the
probe runs at most once and its cached boolean is reused: a cached
unavailable verdict makes the gate skip the launch and return the
synthesized result (empty stdout, zero duration) without touching the
state, and a set cache is never probed again.  `main` itself performs one
additional uncached probe, so a full session can probe twice. -/
theorem C3_probe_cached_in_run_command (t : Bool) (cmds : List (List String)) :
    (runCommands t cmds initProbeState).probeCount ≤ 1 ∧
    (∀ (st : ProbeState) (c : List String), st.driftmgr_available = some false →
      headIsDriftmgr c = true →
      run_command_gate t c st = (st, some (unavailableResult c))) ∧
    (∀ (st : ProbeState) (b : Bool) (c : List String),
      st.driftmgr_available = some b → (run_command_gate t c st).1 = st) := by
  refine ⟨runCommands_probe_inv t cmds initProbeState (Or.inl ⟨rfl, rfl⟩), ?_, ?_⟩
  · intro st c hcache hhead
    unfold run_command_gate
    simp [hhead, hcache]
  · intro st b c hcache
    exact run_command_gate_cached t c st b hcache

/-- Witness for C3's amended theorem: a two-command session probes at most
once, and a cache that says unavailable short-circuits a discover command
into the synthesized result. -/
theorem C3_probe_cached_in_run_command_witness :
    (runCommands false [["driftmgr", "credentials", "list"],
      ["driftmgr", "state", "list"]] initProbeState).probeCount ≤ 1 ∧
    run_command_gate false ["driftmgr", "discover"]
        { driftmgr_available := some false, probeCount := 1 } =
      ({ driftmgr_available := some false, probeCount := 1 },
        some (unavailableResult ["driftmgr", "discover"])) :=
  ⟨(C3_probe_cached_in_run_command false
      [["driftmgr", "credentials", "list"], ["driftmgr", "state", "list"]]).1,
    (C3_probe_cached_in_run_command false []).2.1
      { driftmgr_available := some false, probeCount := 1 }
      ["driftmgr", "discover"] rfl (by decide)⟩

/-- The verdict component of `validate_command_result` is `validateVerdict`
and depends on neither the feature tag nor the summary state. -/
lemma verdict_of_validate (cmd feat : String) (res : ResultData) (s : TestSummary) :
    (validate_command_result cmd feat res s).1 = validateVerdict cmd res := by
  unfold validate_command_result
  split <;> rfl

/-- A category branch's verdict passes exactly when its condition holds. -/
lemma mkCatVerdict_test_passed (b : Validation) (e : String) (c : Bool)
    (p q : String) (hb : b.test_passed = false) :
    (mkCatVerdict b e c p q).test_passed = c := by
  cases c <;> simp [mkCatVerdict, hb]

/-- Away from the missing-tool branches, the verdict's pass bit is exactly
the spec rule table applied to the first-match category of the command
text. -/
lemma validateVerdict_test_passed_eq (cmd : String) (res : ResultData)
    (h1 : stderrSaysUnavailable res = false) (h2 : stderrSaysNotFound res = false) :
    (validateVerdict cmd res).test_passed = rulePass (selectRule cmd) res := by
  unfold validateVerdict selectRule
  simp only [h1, h2, Bool.false_eq_true, if_false]
  cases hc1 : strContains cmd "credentials"
  case true =>
    simp only [hc1, eq_self_iff_true, if_true, mkCatVerdict_test_passed, rulePass]
  case false =>
  simp only [hc1, Bool.false_eq_true, if_false]
  cases hc2 : strContains cmd "state"
  case true =>
    simp only [hc2, eq_self_iff_true, if_true, mkCatVerdict_test_passed, rulePass]
  case false =>
  simp only [hc2, Bool.false_eq_true, if_false]
  cases hc3 : strContains cmd "discover"
  case true =>
    simp only [hc3, eq_self_iff_true, if_true, mkCatVerdict_test_passed, rulePass]
  case false =>
  simp only [hc3, Bool.false_eq_true, if_false]
  cases hc4 : strContains cmd "analyze"
  case true =>
    simp only [hc4, eq_self_iff_true, if_true, mkCatVerdict_test_passed, rulePass]
  case false =>
  simp only [hc4, Bool.false_eq_true, if_false]
  cases hc5 : strContains cmd "monitor" || strContains cmd "dashboard"
  case true =>
    simp only [hc5, eq_self_iff_true, if_true, mkCatVerdict_test_passed, rulePass]
  case false =>
  simp only [hc5, Bool.false_eq_true, if_false]
  cases hc6 : strContains cmd "remediate"
  case true =>
    simp only [hc6, eq_self_iff_true, if_true, mkCatVerdict_test_passed, rulePass]
  case false =>
  simp only [hc6, Bool.false_eq_true, if_false]
  cases hc7 : strContains cmd "config" || strContains cmd "setup"
  case true =>
    simp only [hc7, eq_self_iff_true, if_true, mkCatVerdict_test_passed, rulePass]
  case false =>
  simp only [hc7, Bool.false_eq_true, if_false]
  cases hc8 : strContains cmd "report" || strContains cmd "export"
  case true =>
    simp only [hc8, eq_self_iff_true, if_true, mkCatVerdict_test_passed, rulePass]
  case false =>
  simp only [hc8, Bool.false_eq_true, if_false]
  cases hc9 : strContains cmd "plugin" || strContains cmd "api" ||
      strContains cmd "webhook"
  case true =>
    simp only [hc9, eq_self_iff_true, if_true, mkCatVerdict_test_passed, rulePass]
  case false =>
  simp only [hc9, Bool.false_eq_true, if_false]
  cases hc10 : strContains cmd "invalid" || strContains cmd "error"
  case true =>
    simp only [hc10, eq_self_iff_true, if_true, mkCatVerdict_test_passed, rulePass]
  case false =>
  simp only [hc10, Bool.false_eq_true, if_false, mkCatVerdict_test_passed, rulePass]

/-- C2: whenever stderr indicates the tool is unavailable or the
executable/file could not be found, the verdict is PASS with evidence that
the condition was handled gracefully, and the verdict (up to the echoed
command string) is the same whatever the command - no category rule is
consulted. -/
theorem C2_missing_tool_precedence (cmd feat : String) (res : ResultData)
    (s : TestSummary)
    (h : stderrSaysUnavailable res = true ∨ stderrSaysNotFound res = true) :
    (validate_command_result cmd feat res s).1 = validateVerdict cmd res ∧
    (validateVerdict cmd res).test_passed = true ∧
    (validateVerdict cmd res).test_result = "PASSED" ∧
    (∃ d ∈ (validateVerdict cmd res).validation_details,
      strContains d "gracefully" = true) ∧
    (∀ cmd' : String,
      validateVerdict cmd' res = { validateVerdict cmd res with command := cmd' }) := by
  refine ⟨verdict_of_validate cmd feat res s, ?_⟩
  by_cases hu : stderrSaysUnavailable res = true
  · refine ⟨by simp [validateVerdict, hu], by simp [validateVerdict, hu], ?_, ?_⟩
    · refine ⟨"Command handled missing driftmgr gracefully", ?_, by decide⟩
      simp [validateVerdict, hu]
    · intro cmd'
      simp [validateVerdict, hu]
  · have hn : stderrSaysNotFound res = true := h.resolve_left hu
    rw [Bool.not_eq_true] at hu
    refine ⟨by simp [validateVerdict, hu, hn], by simp [validateVerdict, hu, hn], ?_, ?_⟩
    · refine ⟨"Command handled missing executable gracefully", ?_, by decide⟩
      simp [validateVerdict, hu, hn]
    · intro cmd'
      simp [validateVerdict, hu, hn]

/-- Witness for C2: the spec's credentials scenario, with the synthesized
tool-unavailable result. -/
theorem C2_missing_tool_precedence_witness :
    stderrSaysUnavailable (unavailableResult ["driftmgr", "credentials", "--show"]) = true ∧
    (validateVerdict "driftmgr credentials --show"
      (unavailableResult ["driftmgr", "credentials", "--show"])).test_passed = true :=
  ⟨by decide,
    (C2_missing_tool_precedence "driftmgr credentials --show" "credentials"
      (unavailableResult ["driftmgr", "credentials", "--show"]) initSummary
      (Or.inl (by decide))).2.1⟩

/-- C10: the applied rule is picked by the first matching substring of the
command text in the fixed dispatch order; the feature tag passed alongside
influences only which statistics bucket is updated, never the verdict. -/
theorem C10_first_match_dispatch (cmd feat feat' : String) (res : ResultData)
    (s s' : TestSummary)
    (h1 : stderrSaysUnavailable res = false) (h2 : stderrSaysNotFound res = false) :
    (validate_command_result cmd feat res s).1 =
      (validate_command_result cmd feat' res s').1 ∧
    (validate_command_result cmd feat res s).1.test_passed =
      rulePass (selectRule cmd) res ∧
    (validate_command_result cmd feat res s).2.feature_results =
      updateFeatureResults feat (validateVerdict cmd res).test_passed
        s.feature_results := by
  refine ⟨?_, ?_, ?_⟩
  · rw [verdict_of_validate, verdict_of_validate]
  · rw [verdict_of_validate]
    exact validateVerdict_test_passed_eq cmd res h1 h2
  · unfold validate_command_result
    simp [h1, h2]

/-- Witness for C10: a plain status command with exit code 0 lands in the
default rule and passes. -/
theorem C10_first_match_dispatch_witness :
    stderrSaysUnavailable (mkRes 0 "" "") = false ∧
    selectRule "driftmgr status" = RuleCat.defaultRule ∧
    (validate_command_result "driftmgr status" "monitoring" (mkRes 0 "" "")
      initSummary).1.test_passed = rulePass (selectRule "driftmgr status") (mkRes 0 "" "") :=
  ⟨by decide, by decide,
    (C10_first_match_dispatch "driftmgr status" "monitoring" "interactive_mode"
      (mkRes 0 "" "") initSummary initSummary (by decide) (by decide)).2.1⟩

/-- C5 counterexample: `driftmgr discover invalid-provider` is issued in the
error-handling phase, yet with exit code 0 and empty channels the verdict
is PASS (the `discover` substring matches first), so PASS is not
equivalent to the inverted error rule on that category. -/
theorem C5_error_category_rule_cex :
    ¬ (∀ (cmd feature : String) (res : ResultData) (s : TestSummary),
        feature = "error_handling" →
        stderrSaysUnavailable res = false → stderrSaysNotFound res = false →
        ((validate_command_result cmd feature res s).1.test_passed = true ↔
          (res.return_code ≠ 0 ∧
            (res.stderr ≠ "" ∨ strContains (strLower res.stdout) "error" = true)))) := by
  intro h
  have h0 := h "driftmgr discover invalid-provider" "error_handling" (mkRes 0 "" "")
    initSummary rfl (by decide) (by decide)
  have hpass : (validate_command_result "driftmgr discover invalid-provider"
      "error_handling" (mkRes 0 "" "") initSummary).1.test_passed = true := by decide
  exact (h0.mp hpass).1 (by decide)

/-- C5 amended: for commands the first-match text dispatch sends to the
invalid/error rule (the feature tag plays no role), and whose stderr does
not trigger the missing-tool precedence, PASS holds exactly when the exit
code is non-zero and stderr is non-empty or stdout contains "error"
case-insensitively. -/
theorem C5_error_rule_iff (cmd feat : String) (res : ResultData) (s : TestSummary)
    (h1 : stderrSaysUnavailable res = false) (h2 : stderrSaysNotFound res = false)
    (hsel : selectRule cmd = RuleCat.errorHandling)
    (hs : res.success = (res.return_code == 0)) :
    ((validate_command_result cmd feat res s).1.test_passed = true ↔
      (res.return_code ≠ 0 ∧
        (res.stderr ≠ "" ∨ strContains (strLower res.stdout) "error" = true))) := by
  rw [verdict_of_validate, validateVerdict_test_passed_eq cmd res h1 h2, hsel]
  simp only [rulePass, hs]
  constructor
  · intro hb
    rcases Bool.and_eq_true _ _ |>.mp hb with ⟨hb1, hb2⟩
    refine ⟨by simpa using hb1, ?_⟩
    rcases Bool.or_eq_true _ _ |>.mp hb2 with hb3 | hb3
    · exact Or.inl (by simpa using hb3)
    · exact Or.inr hb3
  · intro hp
    rcases hp with ⟨hrc, hrest⟩
    refine Bool.and_eq_true _ _ |>.mpr ⟨by simpa using hrc, ?_⟩
    rcases hrest with hr | hr
    · exact Bool.or_eq_true _ _ |>.mpr (Or.inl (by simpa using hr))
    · exact Bool.or_eq_true _ _ |>.mpr (Or.inr hr)

/-- Witness for C5's amended theorem: the spec's invalid-command scenario,
exit code 1 with non-empty stderr, is a PASS. -/
theorem C5_error_rule_iff_witness :
    selectRule "driftmgr invalid-command" = RuleCat.errorHandling ∧
    (validate_command_result "driftmgr invalid-command" "error_handling"
      (mkRes 1 "" "unknown command") initSummary).1.test_passed = true :=
  ⟨by decide,
    (C5_error_rule_iff "driftmgr invalid-command" "error_handling"
      (mkRes 1 "" "unknown command") initSummary (by decide) (by decide)
      (by decide) (by decide)).mpr ⟨by decide, Or.inl (by decide)⟩⟩

/-- Bumping a feature entry preserves its total = passed + failed
decomposition. -/
lemma bumpStats_decomp (b : Bool) (fs : FeatureStats)
    (h : fs.total = fs.passed + fs.failed) :
    (bumpStats b fs).total = (bumpStats b fs).passed + (bumpStats b fs).failed := by
  cases b <;> simp [bumpStats] <;> omega

/-- Updating the feature map preserves the per-entry decomposition. -/
lemma updateFeatureResults_decomp (f : String) (b : Bool) :
    ∀ l : List (String × FeatureStats),
      (∀ e ∈ l, e.2.total = e.2.passed + e.2.failed) →
      ∀ e ∈ updateFeatureResults f b l, e.2.total = e.2.passed + e.2.failed := by
  intro l
  induction l with
  | nil =>
    intro _ e he
    simp only [updateFeatureResults, List.mem_singleton] at he
    rw [he]
    exact bumpStats_decomp b _ rfl
  | cons hd tl ih =>
    obtain ⟨k, fs⟩ := hd
    intro h e he
    simp only [updateFeatureResults] at he
    by_cases hk : (k == f) = true
    · rw [if_pos hk] at he
      rcases List.mem_cons.mp he with he1 | he2
      · rw [he1]
        exact bumpStats_decomp b fs (h (k, fs) (List.mem_cons_self _ _))
      · exact h e (List.mem_cons_of_mem _ he2)
    · rw [if_neg hk] at he
      rcases List.mem_cons.mp he with he1 | he2
      · rw [he1]
        exact h (k, fs) (List.mem_cons_self _ _)
      · exact ih (fun x hx => h x (List.mem_cons_of_mem _ hx)) e he2

/-- Updating the feature map adds exactly one to the sum of the
per-feature totals. -/
lemma updateFeatureResults_sum (f : String) (b : Bool) :
    ∀ l : List (String × FeatureStats),
      ((updateFeatureResults f b l).map (fun e => e.2.total)).sum =
        (l.map (fun e => e.2.total)).sum + 1 := by
  intro l
  induction l with
  | nil => simp [updateFeatureResults, bumpStats]
  | cons hd tl ih =>
    obtain ⟨k, fs⟩ := hd
    simp only [updateFeatureResults]
    by_cases hk : (k == f) = true
    · rw [if_pos hk]
      simp [bumpStats]
      omega
    · rw [if_neg hk]
      simp [ih]
      omega

/-- One validator call preserves the hierarchical statistics invariant. -/
lemma validate_preserves_statsInv (c f : String) (r : ResultData)
    (s : TestSummary) (h : statsInv s) :
    statsInv (validate_command_result c f r s).2 := by
  obtain ⟨h1, h2, h3⟩ := h
  unfold validate_command_result
  dsimp only
  split
  · exact ⟨h1, h2, h3⟩
  · refine ⟨?_, ?_, ?_⟩
    · show s.total_tests + 1 = _
      cases hp : (validateVerdict c r).test_passed <;> simp <;> omega
    · exact updateFeatureResults_decomp f _ s.feature_results h2
    · show ((updateFeatureResults f _ s.feature_results).map _).sum = s.total_tests + 1
      rw [updateFeatureResults_sum, h3]

/-- Any sequence of validator calls started from a summary satisfying the
invariant preserves it. -/
lemma runValidatorCalls_preserves (calls : List ValidatorCall) :
    ∀ s : TestSummary, statsInv s → statsInv (runValidatorCalls calls s) := by
  induction calls with
  | nil => intro s h; exact h
  | cons c cs ih =>
    intro s h
    exact ih _ (validate_preserves_statsInv c.command c.feature c.res s h)

/-- C1: after every validator call - that is, after any sequence of calls
from the initial state - the session totals decompose into passed plus
failed, every feature entry decomposes the same way, and the per-feature
totals sum to the session total. -/
theorem C1_statistics_invariant (calls : List ValidatorCall) :
    statsInv (runValidatorCalls calls initSummary) :=
  runValidatorCalls_preserves calls initSummary ⟨rfl, by simp [initSummary], rfl⟩

/-- C9: with a positive step total, `update` computes the clamped progress
fraction, the floored filled width and percentage, the ETA formula exactly
when the step is positive, and the placeholder (no division) when the step
is zero. -/
theorem C9_loading_bar_formulas (total_steps width step : ℕ) (elapsed : ℚ)
    (htotal : 0 < total_steps) :
    (loadingBarUpdate total_steps width step elapsed).progress =
      min ((step : ℚ) / (total_steps : ℚ)) 1 ∧
    (loadingBarUpdate total_steps width step elapsed).filled_width =
      ⌊(width : ℚ) * min ((step : ℚ) / (total_steps : ℚ)) 1⌋ ∧
    (loadingBarUpdate total_steps width step elapsed).percentage =
      ⌊min ((step : ℚ) / (total_steps : ℚ)) 1 * 100⌋ ∧
    (0 < step →
      (loadingBarUpdate total_steps width step elapsed).eta =
        some (elapsed / min ((step : ℚ) / (total_steps : ℚ)) 1 *
          (1 - min ((step : ℚ) / (total_steps : ℚ)) 1))) ∧
    (step = 0 → (loadingBarUpdate total_steps width step elapsed).eta = none) := by
  refine ⟨rfl, rfl, rfl, ?_, ?_⟩
  · intro hstep
    have hpos : 0 < min ((step : ℚ) / (total_steps : ℚ)) 1 :=
      lt_min (div_pos (by exact_mod_cast hstep) (by exact_mod_cast htotal)) one_pos
    show (if _ > 0 then _ else _) = _
    rw [if_pos hpos]
  · intro hstep
    subst hstep
    show (if _ > 0 then _ else _) = _
    rw [if_neg]
    simp

/-- Witness for C9 at the simulation's 11-step bar: step 5 yields the
clamped fraction, step 0 yields the ETA placeholder. -/
theorem C9_loading_bar_formulas_witness :
    0 < 11 ∧
    (loadingBarUpdate 11 50 5 7).progress =
      min (((5 : ℕ) : ℚ) / ((11 : ℕ) : ℚ)) 1 ∧
    (loadingBarUpdate 11 50 0 7).eta = none :=
  ⟨by decide, (C9_loading_bar_formulas 11 50 5 7 (by decide)).1,
    (C9_loading_bar_formulas 11 50 0 7 (by decide)).2.2.2.2 rfl⟩

/-- The floor of a quotient of naturals in ℚ is their natural division. -/
lemma floor_nat_div (a T : ℕ) :
    ⌊((a : ℚ)) / ((T : ℚ))⌋ = ((a / T : ℕ) : ℤ) := by
  rw [Rat.floor_natCast_div_natCast]
  exact_mod_cast rfl

/-- The step value of a command-progress update in integer form. -/
lemma cmdStep_cast (T c : ℕ) :
    (⌊(c : ℚ) / (T : ℚ) * 100⌋).toNat = tuiCmdStep T c := by
  have h : (c : ℚ) / (T : ℚ) * 100 = ((100 * c : ℕ) : ℚ) / ((T : ℕ) : ℚ) := by
    push_cast
    ring
  rw [h, floor_nat_div, Int.toNat_natCast]
  rfl

/-- The 11-step bar's rendered percentage in integer form. -/
lemma barPercentage_eq_nat (s : ℕ) : barPercentage s = barPercentageNat s := by
  unfold barPercentage loadingBarUpdate barPercentageNat FEATURE_STEP_COUNT
  dsimp only
  by_cases h : s ≤ 11
  · rw [min_eq_left]
    · have h2 : (s : ℚ) / ((11 : ℕ) : ℚ) * 100 =
          ((100 * s : ℕ) : ℚ) / ((11 : ℕ) : ℚ) := by
        push_cast
        ring
      rw [h2, floor_nat_div]
      have h3 : (100 * s) / 11 ≤ 100 := by omega
      congr 1
      omega
    · rw [div_le_one (by exact_mod_cast (by omega : (0 : ℕ) < 11))]
      exact_mod_cast h
  · push_neg at h
    rw [min_eq_right]
    · have h3 : min ((100 * s) / 11) 100 = 100 := by omega
      rw [h3, one_mul]
      norm_num
    · rw [le_div_iff₀ (by exact_mod_cast (by omega : (0 : ℕ) < 11)), one_mul]
      exact_mod_cast le_of_lt h

/-- The rendered-percentage sequence agrees with its integer mirror. -/
lemma renderedPercents_eq_nat (evs : List TUIEvent) :
    ∀ st : TUIState, renderedPercents st evs = renderedPercentsNat st evs := by
  induction evs with
  | nil => intro st; rfl
  | cons e es ih =>
    intro st
    cases e with
    | featureUpdate i =>
      show barPercentage i :: renderedPercents st es =
        barPercentageNat i :: renderedPercentsNat st es
      rw [barPercentage_eq_nat, ih]
    | commandDone =>
      show barPercentage
          ((⌊((st.completed_commands + 1 : ℕ) : ℚ) / (st.total_commands : ℚ) * 100⌋).toNat) ::
          renderedPercents { st with completed_commands := st.completed_commands + 1 } es =
        _ :: renderedPercentsNat { st with completed_commands := st.completed_commands + 1 } es
      rw [cmdStep_cast, barPercentage_eq_nat, ih]

/-- The predicate `monoPercents` agrees with its boolean checker. -/
lemma monoPercents_iff_monoPercentsB (l : List ℤ) :
    monoPercents l ↔ monoPercentsB l = true := by
  induction l with
  | nil => simp [monoPercents, monoPercentsB]
  | cons a tail ih =>
    cases tail with
    | nil => simp [monoPercents, monoPercentsB]
    | cons b rest =>
      unfold monoPercents monoPercentsB
      rw [List.chain'_cons]
      unfold monoPercents at ih
      rw [ih]
      by_cases hab : a ≤ b
      · rw [if_pos hab]
        simp [hab]
      · rw [if_neg hab]
        simp [hab]

/-- C8 counterexample: along the updates the harness actually issues in its
first three phases (201 total commands, 11 bar steps), the percentage
rendered after the 97 command completions is 100, and the feature-level
update that opens phase three renders 18, so the interleaved sequence is
not monotonically non-decreasing. -/
theorem C8_interleaved_progress_not_monotone_cex :
    ¬ monoPercents (renderedPercents tuiInit harnessOpeningEvents) := by
  rw [renderedPercents_eq_nat, monoPercents_iff_monoPercentsB]
  decide

lemma tuiCmdStep_mono (T : ℕ) {c1 c2 : ℕ} (h : c1 ≤ c2) :
    tuiCmdStep T c1 ≤ tuiCmdStep T c2 :=
  Nat.div_le_div_right (Nat.mul_le_mul_left _ h)

lemma barPercentageNat_mono {s1 s2 : ℕ} (h : s1 ≤ s2) :
    barPercentageNat s1 ≤ barPercentageNat s2 := by
  unfold barPercentageNat
  have h2 := Nat.div_le_div_right (c := FEATURE_STEP_COUNT) (Nat.mul_le_mul_left 100 h)
  have h3 : min ((100 * s1) / FEATURE_STEP_COUNT) 100 ≤
      min ((100 * s2) / FEATURE_STEP_COUNT) 100 := by omega
  exact_mod_cast h3

/-- C8 amended: the rendered percentage is monotonically non-decreasing
across the command-level updates alone; it is the interleaved feature-level
updates (which rescale the step against the 11-step bar) that break
monotonicity, as the counterexample shows. -/
theorem C8_command_progress_monotone (st : TUIState) (n : ℕ) :
    monoPercents (renderedPercents st (List.replicate n TUIEvent.commandDone)) := by
  rw [renderedPercents_eq_nat]
  induction n generalizing st with
  | zero => exact List.chain'_nil
  | succ m ih =>
    rw [List.replicate_succ]
    show List.Chain' (· ≤ ·)
      (barPercentageNat (tuiCmdStep st.total_commands (st.completed_commands + 1)) ::
        renderedPercentsNat { st with completed_commands := st.completed_commands + 1 }
          (List.replicate m TUIEvent.commandDone))
    rw [List.chain'_cons']
    refine ⟨?_, ih _⟩
    intro y hy
    cases m with
    | zero => simp [renderedPercentsNat] at hy
    | succ k =>
      rw [List.replicate_succ] at hy
      simp only [renderedPercentsNat, List.head?, Option.mem_def, Option.some.injEq] at hy
      rw [← hy]
      exact barPercentageNat_mono (tuiCmdStep_mono _ (by omega))

end Driftmgr
